import Mathlib

/-!
Verification of the git-remote-s3 remote helper (src/git_remote_s3/remote.py)
against its natural-language specification.

The object store is modelled as a list of keys (object bodies are irrelevant
to the claims).  Calls into the store and into the git binary are recorded as
an event trace.  The git adapter (git.py) is not part of the provided sources;
following the specification (section 4.6) its operations are supplied as
oracle parameters: rev_parse may fail (GitError, modelled as none), is_ancestor
is a boolean oracle, bundle writes "<folder>/<sha>.bundle", archive writes a
zip file into the temporary folder.
-/

/-- listIsInfix needle l: needle occurs as a contiguous block inside l. -/
def listIsInfix (needle : List Char) : List Char → Bool
  | [] => needle.isEmpty
  | c :: cs => needle.isPrefixOf (c :: cs) || listIsInfix needle cs

/-- Python substring test (the `in` operator on str): needle occurs inside hay. -/
def strInfix (needle hay : String) : Bool :=
  listIsInfix needle.data hay.data

/-- Python s.startswith(pre), computed on the character lists. -/
def pyStartsWith (s pre : String) : Bool :=
  pre.data.isPrefixOf s.data

/-- Python s.split(sep) for a one-character separator, on character lists:
empty pieces are kept, and splitting the empty string yields one empty piece. -/
def pySplitChar (sep : Char) : List Char → List (List Char)
  | [] => [[]]
  | c :: cs =>
    if c = sep then [] :: pySplitChar sep cs
    else
      match pySplitChar sep cs with
      | [] => [[c]]
      | g :: gs => (c :: g) :: gs

/-- Python s.split(sep) for a one-character separator. -/
def pySplit (s : String) (sep : Char) : List String :=
  (pySplitChar sep s.data).map (fun l => ⟨l⟩)

/-- Python s[n:], computed on the character lists. -/
def pyDrop (s : String) (n : Nat) : String :=
  ⟨s.data.drop n⟩

/-- Modelled from the spec: src/git_remote_s3/enums.py is not among the provided
sources; section 3 of the spec fixes the two URI schemes S3 and S3+ZIP. -/
inductive UriScheme where
  | s3
  | s3zip
deriving Repr, DecidableEq, BEq

/-- One call to the object store, as issued by remote.py.  `createMultipart`
records the metadata passed to create_multipart_upload; `completeMultipart`
records the collected PartNumber/ETag pairs passed to complete_multipart_upload. -/
inductive S3Event where
  | listObjects (pfx : String)
  | getObject (key : String)
  | putObject (key : String)
  | deleteObject (key : String)
  | headObject (key : String)
  | createMultipart (key : String) (metadata : Option String)
  | uploadPart (key : String) (partNumber : Nat)
  | completeMultipart (key : String) (parts : List (Nat × String))
  | abortMultipart (key : String)
deriving Repr, DecidableEq

/-- Whether the call mutates the store (put, delete, or a multipart call). -/
def S3Event.isMutation : S3Event → Bool
  | .putObject _ => true
  | .deleteObject _ => true
  | .createMultipart _ _ => true
  | .uploadPart _ _ => true
  | .completeMultipart _ _ => true
  | .abortMultipart _ => true
  | _ => false

/-- DEFAULT_PART_SIZE = 100 * 1024 * 1024 (remote.py line 28). -/
def DEFAULT_PART_SIZE : Nat := 104857600

/-- MULTIPART_UPLOAD_THRESHOLD = 2 * 1024 * 1024 * 1024 (remote.py line 29). -/
def MULTIPART_UPLOAD_THRESHOLD : Nat := 2147483648

/-- should_use_multipart_upload (remote.py lines 45-49): true when the file
size exceeds the threshold.  The size is passed directly (get_file_size reads
it from disk in the source). -/
def should_use_multipart_upload (fileSize : Nat) : Bool :=
  fileSize > MULTIPART_UPLOAD_THRESHOLD

/-- math.ceil(file_size / part_size) (remote.py line 95), on natural numbers. -/
def mathCeil_div (a b : Nat) : Nat :=
  (a + b - 1) / b

/-- Behaviour of the S3 client during a multipart upload: whether
create_multipart_upload succeeds, whether the upload of a given part number
succeeds and what ETag it returns, and whether complete_multipart_upload
succeeds. -/
structure MpuEnv where
  createOk : Bool
  partOk : Nat → Bool
  partETag : Nat → String
  completeOk : Bool

/-- The part-upload loop of multipart_upload_file (remote.py lines 100-122):
parts are numbered consecutively starting at `next`; on success the collected
PartNumber/ETag pairs are returned; a failing upload_part call raises
(modelled as Except.error).  The event list records every attempted call. -/
def uploadParts (env : MpuEnv) (key : String) (next : Nat) :
    Nat → Except String (List (Nat × String)) × List S3Event
  | 0 => (.ok [], [])
  | remaining + 1 =>
    if env.partOk next then
      match uploadParts env key (next + 1) remaining with
      | (.ok ps, ev) =>
          (.ok ((next, env.partETag next) :: ps), .uploadPart key next :: ev)
      | (.error e, ev) => (.error e, .uploadPart key next :: ev)
    else
      (.error "ClientError", [.uploadPart key next])

/-- The inner try block of multipart_upload_file (remote.py lines 98-145),
given the part count total_parts computed at line 95: upload all parts, then
complete; on any error abort the multipart upload and re-raise (the raise at
line 145, modelled as Except.error). -/
def multipartUploadInner (env : MpuEnv) (totalParts : Nat) (key : String) :
    Except String Bool × List S3Event :=
  match uploadParts env key 1 totalParts with
  | (.error e, ev) => (.error e, ev ++ [.abortMultipart key])
  | (.ok parts, ev) =>
    if env.completeOk then
      (.ok true, ev ++ [.completeMultipart key parts])
    else
      (.error "ClientError", ev ++ [.completeMultipart key parts, .abortMultipart key])

/-- multipart_upload_file (remote.py lines 52-149).  An empty file returns
False immediately.  The outer try/except (lines 72, 147-149) catches every
exception, including the one re-raised by the inner block after aborting, and
returns False: the function never lets an exception escape, which is why its
result is always Except.ok. -/
def multipart_upload_file (env : MpuEnv) (fileSize : Nat) (key : String)
    (metadata : Option String) : Except String Bool × List S3Event :=
  if fileSize = 0 then (.ok false, [])
  else if env.createOk then
    match multipartUploadInner env (mathCeil_div fileSize DEFAULT_PART_SIZE) key with
    | (.error _, ev) => (.ok false, .createMultipart key metadata :: ev)
    | (.ok b, ev) => (.ok b, .createMultipart key metadata :: ev)
  else
    (.ok false, [.createMultipart key metadata])

/-- The outcome of one cmd_push call: either a protocol reply string written
by process_cmd, or a Python exception escaping cmd_push. -/
inductive PushOutcome where
  | reply (s : String)
  | pyError (e : String)
deriving Repr, DecidableEq

/-- Result of one cmd_push call: outcome, store keys afterwards, the trace of
store calls, and the temporary files still existing when the call ends. -/
structure PushResult where
  outcome : PushOutcome
  s3 : List String
  events : List S3Event
  tempFiles : List String
deriving Repr, DecidableEq

/-- The temporary directory created by tempfile.mkdtemp for a push
(remote.py line 284). -/
def tempDirPush : String := "tmp_push"

/-- Modelled from the spec: git.py is not among the provided sources; per
section 4.6 git.archive writes a zip archive into the temporary folder and
returns its path. -/
def archiveTempPath : String := tempDirPush ++ "/archive.zip"

/-- put_object on the key model: a put creates the key when absent
(overwriting an existing object leaves the key set unchanged). -/
def s3put (s3 : List String) (k : String) : List String :=
  if k ∈ s3 then s3 else s3 ++ [k]

/-- delete_object on the key model: the key is removed. -/
def s3del (s3 : List String) (k : String) : List String :=
  s3.filter (fun x => x != k)

/-- get_bundles_for_ref (remote.py lines 399-417): list everything under
"<prefix>/<remote_ref>/" and drop keys containing "PROTECTED#" or ".zip". -/
def get_bundles_for_ref (pfx remoteRef : String) (s3 : List String) : List String :=
  (s3.filter (fun k => pyStartsWith k (pfx ++ "/" ++ remoteRef ++ "/"))).filter
    (fun k => !(strInfix "PROTECTED#" k) && !(strInfix ".zip" k))

/-- is_protected (remote.py lines 419-423): the listing under
"<prefix>/<remote_ref>/PROTECTED#" is non-empty. -/
def is_protected (pfx remoteRef : String) (s3 : List String) : Bool :=
  !((s3.filter (fun k => pyStartsWith k (pfx ++ "/" ++ remoteRef ++ "/PROTECTED#"))).isEmpty)

/-- Force is requested by a leading "+" and granted only when the ref is not
protected (remote.py lines 278-281). -/
def forceGranted (pfx remoteRef : String) (s3 : List String) (localRef0 : String) : Bool :=
  pyStartsWith localRef0 "+" && !(is_protected pfx remoteRef s3)

/-- local_ref with the force marker stripped (remote.py line 281). -/
def stripForce (s : String) : String :=
  if pyStartsWith s "+" then pyDrop s 1 else s

/-- remote_sha = key.split("/")[-1].split(".")[0] (remote.py line 295). -/
def remoteShaOfKey (k : String) : String :=
  ((pySplit ((pySplit k '/').getLastD "") '.').headD "")

/-- remove_remote_ref (remote.py lines 249-271): list everything under
"<prefix>/<remote_ref>" (no trailing slash); delete all listed objects and
reply ok exactly when the count is 1 (scheme S3) or 2 (scheme S3+ZIP);
otherwise reply error and delete nothing.  Only the object count is checked,
not what kind of objects were listed. -/
def remove_remote_ref (scheme : UriScheme) (pfx remoteRef : String)
    (s3 : List String) : PushResult :=
  let listEv := [S3Event.listObjects (pfx ++ "/" ++ remoteRef)]
  let objectsToDelete := s3.filter (fun k => pyStartsWith k (pfx ++ "/" ++ remoteRef))
  if (scheme == UriScheme.s3 && objectsToDelete.length == 1)
      || (scheme == UriScheme.s3zip && objectsToDelete.length == 2) then
    { outcome := .reply ("ok " ++ remoteRef ++ "\n"),
      s3 := s3.filter (fun k => !(objectsToDelete.contains k)),
      events := listEv ++ objectsToDelete.map S3Event.deleteObject,
      tempFiles := [] }
  else
    { outcome := .reply ("error " ++ remoteRef ++ " not found\n"),
      s3 := s3, events := listEv, tempFiles := [] }

/-- init_remote_head (remote.py lines 383-397): head_object on
"<prefix>/HEAD"; when that raises (the key is absent) put the ref name there.
The put_object itself can raise ClientError (putRaises gives the message),
which escapes to the except handler of cmd_push at lines 376-378.  Returns
the store (or the exception) and the calls issued. -/
def init_remote_head (putRaises : String → Option String) (pfx : String)
    (s3 : List String) : Except String (List String) × List S3Event :=
  let headKey := pfx ++ "/HEAD"
  if headKey ∈ s3 then (.ok s3, [.headObject headKey])
  else
    match putRaises headKey with
    | some msg => (.error msg, [.headObject headKey, .putObject headKey])
    | none => (.ok (s3 ++ [headKey]), [.headObject headKey, .putObject headKey])

/-- Oracles for one push: the git adapter (modelled from the spec, section
4.6, since git.py is not among the provided sources), the sizes of the bundle
and archive files it writes, and the S3 client behaviour for multipart
uploads. -/
structure PushEnv where
  revParse : String → Option String
  isAncestor : String → String → Bool
  bundleSize : Nat
  archiveSize : Nat
  lastCommitMessage : String
  mpu : MpuEnv
  putRaises : String → Option String

/-- The finally block of cmd_push (remote.py lines 379-381): it removes
"<temp_dir>/<sha>.bundle" when that file exists.  When cmd_push reached the
finally without ever assigning sha (rev_parse raised GitError before line 293
completed), evaluating the f-string raises UnboundLocalError, which replaces
whatever the try/except part was about to return. -/
def pushFinally (shaOpt : Option String) (intended : PushOutcome) (s3 : List String)
    (events : List S3Event) (tempFiles : List String) : PushResult :=
  match shaOpt with
  | none =>
      { outcome := .pyError "UnboundLocalError", s3 := s3, events := events,
        tempFiles := tempFiles }
  | some sha =>
      { outcome := intended, s3 := s3, events := events,
        tempFiles := tempFiles.filter (fun f => f != tempDirPush ++ "/" ++ sha ++ ".bundle") }

/-- The remainder of the cmd_push try block once the bundle upload succeeded
(remote.py lines 325-369): record the uploaded bundle key, initialise the
remote HEAD, delete the previous bundle when one existed (line 328-329,
without comparing shas), and under scheme S3+ZIP create and upload the zip
archive.  Each put_object can raise ClientError (the putRaises oracle), which
the except handler at lines 376-378 turns into the reply
error remote "message"?. -/
def pushAfterBundle (env : PushEnv) (scheme : UriScheme) (pfx remoteRef : String)
    (remoteToRemove : Option String) (sha : String)
    (s3 : List String) (ev2 : List S3Event) (files1 : List String) : PushResult :=
  let bundleKey := pfx ++ "/" ++ remoteRef ++ "/" ++ sha ++ ".bundle"
  let s3a := s3put s3 bundleKey
  match init_remote_head env.putRaises pfx s3a with
  | (.error msg, evH) =>
      pushFinally (some sha)
        (.reply ("error " ++ remoteRef ++ " \"" ++ msg ++ "\"?\n"))
        s3a (ev2 ++ evH) files1
  | (.ok s3b, evH) =>
    let ev3 := ev2 ++ evH
    let s3c := match remoteToRemove with
      | some rkey => s3del s3b rkey
      | none => s3b
    let ev4 := match remoteToRemove with
      | some rkey => ev3 ++ [S3Event.deleteObject rkey]
      | none => ev3
    if scheme == UriScheme.s3zip then
      let files2 := files1 ++ [archiveTempPath]
      let archiveKey := pfx ++ "/" ++ remoteRef ++ "/repo.zip"
      if should_use_multipart_upload env.archiveSize then
        match multipart_upload_file env.mpu env.archiveSize archiveKey
            (some env.lastCommitMessage) with
        | (.error e, evA) =>
            pushFinally (some sha) (.pyError e) s3c (ev4 ++ evA) files2
        | (.ok false, evA) =>
            pushFinally (some sha)
              (.reply ("error " ++ remoteRef ++
                " \"Failed to upload archive using multipart upload\"?\n"))
              s3c (ev4 ++ evA) files2
        | (.ok true, evA) =>
            pushFinally (some sha) (.reply ("ok " ++ remoteRef ++ "\n"))
              (s3put s3c archiveKey) (ev4 ++ evA) files2
      else
        match env.putRaises archiveKey with
        | some msg =>
            pushFinally (some sha)
              (.reply ("error " ++ remoteRef ++ " \"" ++ msg ++ "\"?\n"))
              s3c (ev4 ++ [.putObject archiveKey]) files2
        | none =>
            pushFinally (some sha) (.reply ("ok " ++ remoteRef ++ "\n"))
              (s3put s3c archiveKey) (ev4 ++ [.putObject archiveKey]) files2
    else
      pushFinally (some sha) (.reply ("ok " ++ remoteRef ++ "\n")) s3c ev4 files1

/-- The body of cmd_push (remote.py lines 273-381) after the argument has been
split into local_ref and remote_ref.  Every exit of the try block (lines
292-381) goes through pushFinally; the delete path and the multiple-bundles
reply exit before the try block.  The single put_object calls are modelled as
succeeding; multipart uploads follow the MpuEnv oracle, mirroring lines
303-323 and 331-367. -/
def cmd_push_core (env : PushEnv) (scheme : UriScheme) (pfx : String)
    (s3 : List String) (localRef0 remoteRef : String) : PushResult :=
  if localRef0 = "" then remove_remote_ref scheme pfx remoteRef s3
  else
    let forcePush := forceGranted pfx remoteRef s3 localRef0
    let localRef := stripForce localRef0
    let ev0 : List S3Event :=
      if pyStartsWith localRef0 "+" then
        [.listObjects (pfx ++ "/" ++ remoteRef ++ "/PROTECTED#")]
      else []
    let ev1 := ev0 ++ [.listObjects (pfx ++ "/" ++ remoteRef ++ "/")]
    let contents := get_bundles_for_ref pfx remoteRef s3
    if contents.length > 1 then
      { outcome := .reply ("error " ++ remoteRef ++
          " \"multiple bundles exists on server. Run git-s3 doctor to fix.\"?\n"),
        s3 := s3, events := ev1, tempFiles := [] }
    else
      let remoteToRemove := contents.head?
      match env.revParse localRef with
      | none =>
          pushFinally none
            (.reply ("error " ++ remoteRef ++ " \"" ++ localRef ++ " not found\"?\n"))
            s3 ev1 []
      | some sha =>
        let ffFail : Bool :=
          match remoteToRemove with
          | some rkey => !forcePush && !(env.isAncestor (remoteShaOfKey rkey) sha)
          | none => false
        if ffFail then
          pushFinally (some sha)
            (.reply ("error " ++ remoteRef ++ " \"remote ref is not ancestor of " ++
              localRef ++ ".\"?\n"))
            s3 ev1 []
        else
          let tempFile := tempDirPush ++ "/" ++ sha ++ ".bundle"
          let files1 := [tempFile]
          let bundleKey := pfx ++ "/" ++ remoteRef ++ "/" ++ sha ++ ".bundle"
          if should_use_multipart_upload env.bundleSize then
            match multipart_upload_file env.mpu env.bundleSize bundleKey none with
            | (.error e, evU) =>
                pushFinally (some sha) (.pyError e) s3 (ev1 ++ evU) files1
            | (.ok false, evU) =>
                pushFinally (some sha)
                  (.reply ("error " ++ remoteRef ++
                    " \"Failed to upload bundle using multipart upload\"?\n"))
                  s3 (ev1 ++ evU) files1
            | (.ok true, evU) =>
                pushAfterBundle env scheme pfx remoteRef remoteToRemove sha
                  s3 (ev1 ++ evU) files1
          else
            match env.putRaises bundleKey with
            | some msg =>
                pushFinally (some sha)
                  (.reply ("error " ++ remoteRef ++ " \"" ++ msg ++ "\"?\n"))
                  s3 (ev1 ++ [.putObject bundleKey]) files1
            | none =>
                pushAfterBundle env scheme pfx remoteRef remoteToRemove sha
                  s3 (ev1 ++ [.putObject bundleKey]) files1

/-- cmd_push (remote.py line 273): parse the argument as in
args.split(" ")[1].split(":") and run the body. -/
def cmd_push (env : PushEnv) (scheme : UriScheme) (pfx : String)
    (s3 : List String) (args : String) : PushResult :=
  match (pySplit args ' ').get? 1 with
  | none => { outcome := .pyError "IndexError", s3 := s3, events := [], tempFiles := [] }
  | some refspec =>
    match pySplit refspec ':' with
    | [l, r] => cmd_push_core env scheme pfx s3 l r
    | _ => { outcome := .pyError "ValueError", s3 := s3, events := [], tempFiles := [] }

/-- A call made while fetching: a store download or a run of git bundle
unbundle. -/
inductive FetchEvent where
  | getObject (key : String)
  | unbundle (sha : String) (ref : String)
deriving Repr, DecidableEq

deriving instance DecidableEq for Except

/-- Result of one cmd_fetch call: outcome (Except.error for an exception
escaping cmd_fetch), the calls made, the temporary files still existing when
the call ends, and the fetched-refs set afterwards. -/
structure FetchResult where
  outcome : Except String Unit
  events : List FetchEvent
  tempFiles : List String
  fetchedRefs : List String
deriving Repr, DecidableEq

/-- The temporary directory created by tempfile.mkdtemp for a fetch
(remote.py line 228). -/
def tempDirFetch : String := "tmp_fetch"

/-- The finally block of cmd_fetch (remote.py lines 245-247): remove
"<temp_dir>/<sha>.bundle" when that file exists. -/
def fetchFinally (sha : String) (files : List String) : List String :=
  files.filter (fun f => f != tempDirFetch ++ "/" ++ sha ++ ".bundle")

/-- cmd_fetch (remote.py lines 221-247), run on its own: skip when the sha is
already in fetched_refs (a return before the try block, so no temporary file
is involved); otherwise download "<prefix>/<ref>/<sha>.bundle" (get_object
raises ClientError when the key is absent, before the temporary file is
written), write the temporary bundle file, run git unbundle (which may raise
GitError, modelled by the unbundleOk oracle), record the sha, and pass the
files through the finally block in every case. -/
def cmd_fetch (pfx : String) (s3 : List String) (unbundleOk : Bool)
    (fetchedRefs : List String) (sha ref : String) : FetchResult :=
  if sha ∈ fetchedRefs then
    { outcome := .ok (), events := [], tempFiles := [], fetchedRefs := fetchedRefs }
  else
    let key := pfx ++ "/" ++ ref ++ "/" ++ sha ++ ".bundle"
    let tempFile := tempDirFetch ++ "/" ++ sha ++ ".bundle"
    if key ∉ s3 then
      { outcome := .error "ClientError", events := [.getObject key],
        tempFiles := fetchFinally sha [], fetchedRefs := fetchedRefs }
    else if unbundleOk then
      { outcome := .ok (), events := [.getObject key, .unbundle sha ref],
        tempFiles := fetchFinally sha [tempFile], fetchedRefs := fetchedRefs ++ [sha] }
    else
      { outcome := .error "GitError", events := [.getObject key, .unbundle sha ref],
        tempFiles := fetchFinally sha [tempFile], fetchedRefs := fetchedRefs }

/-- One queued fetch command: "fetch <sha> <ref>". -/
structure FetchCmd where
  sha : String
  ref : String
deriving Repr, DecidableEq

/-- State of the thread pool processing one fetch batch: a program counter per
worker, the shared fetched-refs list, and the interleaved trace.  Counters:
0 before the mutex-guarded membership check, 1 before the download, 2 before
git unbundle, 3 before the mutex-guarded append, 4 done. -/
structure PoolState where
  pcs : List Nat
  fetchedRefs : List String
  events : List FetchEvent
deriving Repr, DecidableEq

/-- Initial pool state for n workers. -/
def initPool (n : Nat) : PoolState :=
  { pcs := List.replicate n 0, fetchedRefs := [], events := [] }

/-- One atomic step of worker i running cmd_fetch (remote.py lines 221-247).
The two Lock-guarded sections (the membership check at lines 223-225 and the
append at lines 239-240) are single steps; the download and the unbundle are
separate steps because the store read and the git subprocess suspend the
thread and let other workers run. -/
def stepWorker (pfx : String) (cmds : List FetchCmd) (st : PoolState) (i : Nat) :
    PoolState :=
  match cmds.get? i, st.pcs.get? i with
  | some c, some pc =>
    if pc = 0 then
      if c.sha ∈ st.fetchedRefs then { st with pcs := st.pcs.set i 4 }
      else { st with pcs := st.pcs.set i 1 }
    else if pc = 1 then
      { st with
        pcs := st.pcs.set i 2
        events := st.events ++
          [.getObject (pfx ++ "/" ++ c.ref ++ "/" ++ c.sha ++ ".bundle")] }
    else if pc = 2 then
      { st with
        pcs := st.pcs.set i 3
        events := st.events ++ [.unbundle c.sha c.ref] }
    else if pc = 3 then
      { st with
        pcs := st.pcs.set i 4
        fetchedRefs := st.fetchedRefs ++ [c.sha] }
    else st
  | _, _ => st

/-- Run the pool under a schedule: the list of worker indices in the order the
scheduler lets them take their next step. -/
def runPool (pfx : String) (cmds : List FetchCmd) (sched : List Nat) : PoolState :=
  sched.foldl (stepWorker pfx cmds) (initPool cmds.length)

/-- concurrent.futures.wait (remote.py line 499): returns once every future
has completed; it raises nothing and the results and exceptions stored in the
futures are not retrieved. -/
def futuresWait (futures : List (Except String Unit)) : List (Except String Unit) :=
  futures

/-- process_fetch_cmds (remote.py lines 482-501) given the per-command
outcomes of the submitted cmd_fetch calls: an empty batch returns at once;
otherwise all futures are awaited and the function returns normally, with no
future ever asked for its result or exception. -/
def process_fetch_cmds (outcomes : List (Except String Unit)) : Except String Unit :=
  match outcomes with
  | [] => .ok ()
  | fs =>
    let _ := futuresWait fs
    .ok ()

/-- The empty-line flush of a fetch batch in process_cmd (remote.py lines
532-537): run process_fetch_cmds, then write the terminating empty line.  An
exception from process_fetch_cmds would propagate instead (Except.error). -/
def flushFetchBatch (outcomes : List (Except String Unit)) :
    Except String (List String) :=
  match process_fetch_cmds outcomes with
  | .ok () => .ok ["\n"]
  | .error e => .error e

/-- Digits of a Python int literal: ASCII digits with single underscores
allowed between digits, evaluated to a value.  The accumulator carries the
value so far and whether a digit has been seen before the current position. -/
def pyDigitsAux : List Char → Nat → Bool → Option Nat
  | [], acc, seenDigit => if seenDigit then some acc else none
  | c :: cs, acc, seenDigit =>
    if c.isDigit then pyDigitsAux cs (acc * 10 + (c.toNat - '0'.toNat)) true
    else if c = '_' then
      match cs with
      | d :: _ => if seenDigit && d.isDigit then pyDigitsAux cs acc true else none
      | [] => none
    else none

/-- The ASCII characters for which Python str.isspace() holds; int() strips
them from both ends of its argument before parsing. -/
def pyIsAsciiSpace (c : Char) : Bool :=
  c = ' ' || c = '\t' || c = '\n' || c = '\r' || c = '\x0b' || c = '\x0c'
    || c = '\x1c' || c = '\x1d' || c = '\x1e' || c = '\x1f'

/-- The whitespace stripping performed by Python int() on a string argument,
restricted to ASCII whitespace. -/
def pyStripSpace (s : String) : List Char :=
  ((s.data.dropWhile pyIsAsciiSpace).reverse.dropWhile pyIsAsciiSpace).reverse

/-- Reference behaviour of the Python builtin int() on a str argument:
strip whitespace, then an optional sign followed by digits with single
underscores between digits; none models the ValueError raised for anything
else.  int() is part of the Python runtime, not of this repository, so
cmd_option below takes its behaviour as an oracle parameter; this reference
parser agrees with int() on every string of ASCII characters (int() also
accepts non-ASCII decimal digits and whitespace, which no git client sends
in an option line). -/
def pyIntVal (s : String) : Option Int :=
  match pyStripSpace s with
  | '+' :: rest => (pyDigitsAux rest 0 false).map Int.ofNat
  | '-' :: rest => (pyDigitsAux rest 0 false).map (fun n => -(Int.ofNat n))
  | cs => (pyDigitsAux cs 0 false).map Int.ofNat

/-- cmd_option (remote.py lines 425-432).  The argument is split on single
spaces and the two tokens after "option" are unpacked (a ValueError when the
count differs).  The condition option == "verbosity" and int(value) >= 2
short-circuits: int(value) is only evaluated for the verbosity option, and a
value on which int() raises makes ValueError escape cmd_option.  The builtin
int() is supplied as the oracle pyInt (none models its ValueError); pyIntVal
is the reference instantiation.  The result is the line written to stdout
and whether the log level was raised. -/
def cmd_option (pyInt : String → Option Int) (arg : String) :
    Except String (String × Bool) :=
  match (pySplit arg ' ').drop 1 with
  | [opt, value] =>
    if opt = "verbosity" then
      match pyInt value with
      | none => .error "ValueError"
      | some v =>
        if v ≥ 2 then .ok ("ok\n", true) else .ok ("unsupported\n", false)
    else .ok ("unsupported\n", false)
  | _ => .error "ValueError"

/-- The key or key-prefix argument of a store call. -/
def S3Event.keyOf : S3Event → String
  | .listObjects p => p
  | .getObject k => k
  | .putObject k => k
  | .deleteObject k => k
  | .headObject k => k
  | .createMultipart k _ => k
  | .uploadPart k _ => k
  | .completeMultipart k _ => k
  | .abortMultipart k => k

/-- An S3 client whose multipart calls all succeed. -/
def mpuOkAll : MpuEnv :=
  { createOk := true, partOk := fun _ => true, partETag := fun _ => "etag",
    completeOk := true }

/-- An S3 client whose upload_part calls all fail. -/
def mpuPartFail : MpuEnv :=
  { createOk := true, partOk := fun _ => false, partETag := fun _ => "etag",
    completeOk := true }

/-- A push environment for small files: rev_parse resolves every ref to "aa",
is_ancestor always holds, and the bundle and archive are one byte. -/
def envSmall : PushEnv :=
  { revParse := fun _ => some "aa"
    isAncestor := fun _ _ => true
    bundleSize := 1
    archiveSize := 1
    lastCommitMessage := "msg"
    mpu := mpuOkAll
    putRaises := fun _ => none }

/-- A push environment in which git rev-parse fails (GitError). -/
def envGitErr : PushEnv :=
  { envSmall with revParse := fun _ => none }

/-- A push environment in which is_ancestor is always false. -/
def envNoAnc : PushEnv :=
  { envSmall with isAncestor := fun _ _ => false }

/-- C1: an update push against an empty store issues only the bundle listing,
the bundle put, the HEAD head/put — no conditional create of
"<prefix>/<ref>/LOCK#.lock" ever precedes the put_object calls, and no store
call at all mentions a lock key, because cmd_push contains no lock handling. -/
theorem cmd_push_performs_no_lock_acquisition :
    (cmd_push envSmall .s3 "p" [] "push refs/heads/main:refs/heads/main").events
      = [.listObjects "p/refs/heads/main/", .putObject "p/refs/heads/main/aa.bundle",
         .headObject "p/HEAD", .putObject "p/HEAD"]
    ∧ ((cmd_push envSmall .s3 "p" [] "push refs/heads/main:refs/heads/main").events.all
        (fun e => !(strInfix "LOCK" e.keyOf))) = true := by
  exact ⟨rfl, rfl⟩

/-- C4: when git rev-parse raises GitError, the except handler prepares the
reply error remote "local not found"? but the finally block evaluates the
f-string "<temp_dir>/<sha>.bundle" with sha never assigned, so cmd_push ends
with an UnboundLocalError escaping instead of returning the reply. -/
theorem cmd_push_git_error_raises_unbound_local :
    cmd_push envGitErr .s3 "p" [] "push refs/heads/missing:refs/heads/main"
      = { outcome := .pyError "UnboundLocalError", s3 := [],
          events := [.listObjects "p/refs/heads/main/"], tempFiles := [] } := by
  exact rfl

/-- C2 counterexample: pushing sha "aa" onto a ref that already holds the
bundle of the same sha "aa" returns ok but then deletes the key it has just
written: the store afterwards holds only HEAD and the bundle
"p/refs/heads/main/aa.bundle" is gone, contrary to the claim that it stays. -/
theorem cmd_push_same_sha_removes_bundle :
    cmd_push envSmall .s3 "p" ["p/refs/heads/main/aa.bundle"]
        "push refs/heads/main:refs/heads/main"
      = { outcome := .reply "ok refs/heads/main\n", s3 := ["p/HEAD"],
          events := [.listObjects "p/refs/heads/main/",
            .putObject "p/refs/heads/main/aa.bundle", .headObject "p/HEAD",
            .putObject "p/HEAD", .deleteObject "p/refs/heads/main/aa.bundle"],
          tempFiles := [] } := by
  exact rfl

/-- C5 counterexample: under scheme S3, a delete push of a ref whose listing
holds a single object that is not a bundle (the PROTECTED# marker) replies ok
and deletes it, although the claim requires exactly one bundle for the ok
reply; only the object count is checked. -/
theorem remove_remote_ref_deletes_non_bundle :
    remove_remote_ref .s3 "p" "refs/heads/main" ["p/refs/heads/main/PROTECTED#"]
      = { outcome := .reply "ok refs/heads/main\n", s3 := [],
          events := [.listObjects "p/refs/heads/main",
            .deleteObject "p/refs/heads/main/PROTECTED#"],
          tempFiles := [] } := by
  exact rfl

/-- C6 counterexample: when the first upload_part call fails, the inner block
aborts the multipart upload and re-raises, but the outer except swallows the
exception and multipart_upload_file returns normally with False — the error is
not propagated to the caller. -/
theorem multipart_upload_error_swallowed :
    multipart_upload_file mpuPartFail 1 "k" none
      = (.ok false, [.createMultipart "k" none, .uploadPart "k" 1, .abortMultipart "k"])
    ∧ multipartUploadInner mpuPartFail 1 "k"
      = (.error "ClientError", [.uploadPart "k" 1, .abortMultipart "k"]) := by
  exact ⟨rfl, rfl⟩

/-- C7 counterexample: with the batch fetch aa r, fetch aa r, the schedule in
which both workers pass the fetched-refs check before either downloads makes
get_object run twice and git unbundle run twice for the same sha, because the
membership check happens before the download and the sha is recorded only
after the unbundle. -/
theorem parallel_fetch_duplicates_same_sha :
    runPool "p" [⟨"aa", "r"⟩, ⟨"aa", "r"⟩] [0, 1, 0, 0, 0, 1, 1, 1]
      = { pcs := [4, 4], fetchedRefs := ["aa", "aa"],
          events := [.getObject "p/r/aa.bundle", .unbundle "aa" "r",
            .getObject "p/r/aa.bundle", .unbundle "aa" "r"] } := by
  exact rfl

/-- C8 counterexample: a batch whose single fetch command fails (the bundle
key is absent, so cmd_fetch ends with a ClientError stored in its future)
still flushes as if it had succeeded: process_fetch_cmds never reads the
futures, no error propagates, and the terminating empty line is written. -/
theorem fetch_batch_error_not_reported :
    flushFetchBatch [(cmd_fetch "p" [] true [] "aa" "refs/heads/main").outcome]
      = .ok ["\n"]
    ∧ (cmd_fetch "p" [] true [] "aa" "refs/heads/main").outcome
      = .error "ClientError" := by
  exact ⟨rfl, rfl⟩

/-- C9 counterexample: a successful S3+ZIP push ends with the zip archive
still on disk: the finally block removes only "<temp_dir>/<sha>.bundle", so
the archive temporary file is never deleted. -/
theorem cmd_push_leaves_archive_file :
    cmd_push envSmall .s3zip "p" [] "push refs/heads/main:refs/heads/main"
      = { outcome := .reply "ok refs/heads/main\n",
          s3 := ["p/refs/heads/main/aa.bundle", "p/HEAD", "p/refs/heads/main/repo.zip"],
          events := [.listObjects "p/refs/heads/main/",
            .putObject "p/refs/heads/main/aa.bundle", .headObject "p/HEAD",
            .putObject "p/HEAD", .putObject "p/refs/heads/main/repo.zip"],
          tempFiles := [archiveTempPath] } := by
  exact rfl

/-- C10 counterexample: option verbosity x reaches int("x"), which raises
ValueError (no digit anywhere, as the reference parser confirms), so
cmd_option raises instead of emitting unsupported; process_cmd does not catch
it, and the helper terminates through the catch-all in main. -/
theorem cmd_option_non_integer_verbosity_raises :
    cmd_option pyIntVal "option verbosity x" = .error "ValueError"
    ∧ pyIntVal "x" = none := by
  exact ⟨rfl, rfl⟩

lemma mem_s3put_self (s3 : List String) (k : String) : k ∈ s3put s3 k := by
  unfold s3put
  split
  · assumption
  · exact List.mem_append_right _ (List.mem_singleton.mpr rfl)

lemma mem_init_remote_head (pr : String → Option String) (pfx : String)
    (s3 l : List String) (k : String)
    (hres : (init_remote_head pr pfx s3).1 = .ok l) (h : k ∈ s3) : k ∈ l := by
  unfold init_remote_head at hres
  simp only [] at hres
  split at hres
  · cases hres
    exact h
  · split at hres
    · cases hres
    · cases hres
      exact List.mem_append_left _ h

lemma mem_s3del_iff (s3 : List String) (k r : String) :
    k ∈ s3del s3 r ↔ k ∈ s3 ∧ k ≠ r := by
  unfold s3del
  simp [List.mem_filter]

lemma reply_error_ne_reply_ok (x y : String)
    (hx : x.data.head? = some 'e') (hy : y.data.head? = some 'o') :
    PushOutcome.reply x ≠ PushOutcome.reply y := by
  intro h
  injection h with h
  rw [h] at hx
  have h2 := hx.symm.trans hy
  exact absurd h2 (by decide)

lemma mem_s3put_elim (l : List String) (k k2 : String) (h : k ∈ s3put l k2) :
    k ∈ l ∨ k = k2 := by
  unfold s3put at h
  split at h
  · exact Or.inl h
  · rcases List.mem_append.mp h with h1 | h1
    · exact Or.inl h1
    · exact Or.inr (List.mem_singleton.mp h1)

lemma mem_s3put_mono (l : List String) (k k2 : String) (h : k ∈ l) :
    k ∈ s3put l k2 := by
  unfold s3put
  split
  · exact h
  · exact List.mem_append_left _ h

lemma bundle_key_ne_archive_key (x y : String) :
    (x ++ ".bundle") ≠ (y ++ "/repo.zip") := by
  intro h
  have h2 : (x ++ ".bundle").data.reverse.head?
      = (y ++ "/repo.zip").data.reverse.head? := by
    rw [h]
  have e1 : (x ++ ".bundle").data.reverse.head? = some 'e' := by
    show (x.data ++ ".bundle".data).reverse.head? = some 'e'
    rw [List.reverse_append]
    rfl
  have e2 : (y ++ "/repo.zip").data.reverse.head? = some 'p' := by
    show (y.data ++ "/repo.zip".data).reverse.head? = some 'p'
    rw [List.reverse_append]
    rfl
  rw [e1, e2] at h2
  exact absurd h2 (by decide)

lemma pushAfterBundle_ok (env : PushEnv) (scheme : UriScheme)
    (pfx remoteRef prevKey sha : String) (s3 : List String) (ev : List S3Event)
    (files : List String)
    (hok : (pushAfterBundle env scheme pfx remoteRef (some prevKey) sha s3 ev files).outcome
        = .reply ("ok " ++ remoteRef ++ "\n")) :
    S3Event.deleteObject prevKey
        ∈ (pushAfterBundle env scheme pfx remoteRef (some prevKey) sha s3 ev files).events
    ∧ (((pfx ++ "/" ++ remoteRef ++ "/" ++ sha ++ ".bundle")
          ∈ (pushAfterBundle env scheme pfx remoteRef (some prevKey) sha s3 ev files).s3)
        ↔ prevKey ≠ (pfx ++ "/" ++ remoteRef ++ "/" ++ sha ++ ".bundle")) := by
  unfold pushAfterBundle at hok ⊢
  simp only [] at hok ⊢
  rcases hih : init_remote_head env.putRaises pfx
      (s3put s3 (pfx ++ "/" ++ remoteRef ++ "/" ++ sha ++ ".bundle")) with ⟨ires, evH⟩
  rw [hih] at hok
  cases ires with
  | error msg =>
    simp only [] at hok
    simp only [pushFinally] at hok
    exact absurd hok (reply_error_ne_reply_ok _ _ (by rfl) (by rfl))
  | ok s3b =>
    simp only [] at hok ⊢
    have hmem : (pfx ++ "/" ++ remoteRef ++ "/" ++ sha ++ ".bundle") ∈ s3b :=
      mem_init_remote_head _ _ _ _ _ (by rw [hih]) (mem_s3put_self _ _)
    by_cases hz : (scheme == UriScheme.s3zip) = true
    · rw [if_pos hz] at hok ⊢
      by_cases hsz : should_use_multipart_upload env.archiveSize = true
      · rw [if_pos hsz] at hok ⊢
        rcases hmu : multipart_upload_file env.mpu env.archiveSize
            (pfx ++ "/" ++ remoteRef ++ "/repo.zip")
            (some env.lastCommitMessage) with ⟨mres, evA⟩
        rw [hmu] at hok
        cases mres with
        | error e =>
          simp only [] at hok
          simp only [pushFinally] at hok
          simp at hok
        | ok b =>
          cases b with
          | false =>
            simp only [] at hok
            simp only [pushFinally] at hok
            exact absurd hok (reply_error_ne_reply_ok _ _ (by rfl) (by rfl))
          | true =>
            simp only [pushFinally]
            constructor
            · simp
            · constructor
              · intro hm
                rcases mem_s3put_elim _ _ _ hm with h1 | h1
                · rw [mem_s3del_iff] at h1
                  exact fun he => h1.2 he.symm
                · exact absurd h1 (bundle_key_ne_archive_key _ _)
              · intro hpn
                exact mem_s3put_mono _ _ _
                  (by rw [mem_s3del_iff]; exact ⟨hmem, fun he => hpn he.symm⟩)
      · rw [if_neg hsz] at hok ⊢
        rcases hpr : env.putRaises (pfx ++ "/" ++ remoteRef ++ "/repo.zip") with _ | msg
        · rw [hpr] at hok
          simp only [pushFinally]
          constructor
          · simp
          · constructor
            · intro hm
              rcases mem_s3put_elim _ _ _ hm with h1 | h1
              · rw [mem_s3del_iff] at h1
                exact fun he => h1.2 he.symm
              · exact absurd h1 (bundle_key_ne_archive_key _ _)
            · intro hpn
              exact mem_s3put_mono _ _ _
                (by rw [mem_s3del_iff]; exact ⟨hmem, fun he => hpn he.symm⟩)
        · rw [hpr] at hok
          simp only [] at hok
          simp only [pushFinally] at hok
          exact absurd hok (reply_error_ne_reply_ok _ _ (by rfl) (by rfl))
    · rw [if_neg hz] at hok ⊢
      simp only [pushFinally]
      constructor
      · simp
      · constructor
        · intro hm
          rw [mem_s3del_iff] at hm
          exact fun he => hm.2 he.symm
        · intro hpn
          rw [mem_s3del_iff]
          exact ⟨hmem, fun he => hpn he.symm⟩

/-- C2 (amended): for every successful non-delete push — any scheme, forced
or not, single-put or multipart, with every put_object allowed to fail — of a
local ref resolving to sha L onto a remote ref holding exactly one prior
bundle, the ok reply implies that delete_object was issued on the prior
bundle key (lines 328-329 do not compare shas), so the bundle
"<prefix>/R/L.bundle" is present afterwards exactly when the prior key
differs from it; pushing the sha already on the remote deletes the bundle
that was just written. -/
theorem cmd_push_ok_always_deletes_prior_bundle (env : PushEnv)
    (scheme : UriScheme) (pfx : String) (s3 : List String)
    (localRef0 remoteRef prevKey L : String)
    (hne : localRef0 ≠ "")
    (hb : get_bundles_for_ref pfx remoteRef s3 = [prevKey])
    (hrev : env.revParse (stripForce localRef0) = some L)
    (hok : (cmd_push_core env scheme pfx s3 localRef0 remoteRef).outcome
        = .reply ("ok " ++ remoteRef ++ "\n")) :
    S3Event.deleteObject prevKey
        ∈ (cmd_push_core env scheme pfx s3 localRef0 remoteRef).events
    ∧ (((pfx ++ "/" ++ remoteRef ++ "/" ++ L ++ ".bundle")
          ∈ (cmd_push_core env scheme pfx s3 localRef0 remoteRef).s3)
        ↔ prevKey ≠ (pfx ++ "/" ++ remoteRef ++ "/" ++ L ++ ".bundle")) := by
  unfold cmd_push_core at hok ⊢
  rw [if_neg hne] at hok ⊢
  simp only [hb, hrev, List.head?, List.length_cons, List.length_nil] at hok ⊢
  norm_num at hok ⊢
  by_cases hff : forceGranted pfx remoteRef s3 localRef0 = false
      ∧ env.isAncestor (remoteShaOfKey prevKey) L = false
  · rw [if_pos hff] at hok
    simp only [pushFinally] at hok
    exact absurd hok (reply_error_ne_reply_ok _ _ (by rfl) (by rfl))
  · rw [if_neg hff] at hok ⊢
    by_cases hsz : should_use_multipart_upload env.bundleSize = true
    · rw [if_pos hsz] at hok ⊢
      rcases hmu : multipart_upload_file env.mpu env.bundleSize
          (pfx ++ "/" ++ remoteRef ++ "/" ++ L ++ ".bundle") none with ⟨mres, evU⟩
      rw [hmu] at hok
      cases mres with
      | error e =>
        simp only [] at hok
        simp only [pushFinally] at hok
        simp at hok
      | ok b =>
        cases b with
        | false =>
          simp only [] at hok
          simp only [pushFinally] at hok
          exact absurd hok (reply_error_ne_reply_ok _ _ (by rfl) (by rfl))
        | true =>
          simp only [] at hok ⊢
          exact pushAfterBundle_ok _ _ _ _ _ _ _ _ _ hok
    · rw [if_neg hsz] at hok ⊢
      rcases hpr : env.putRaises (pfx ++ "/" ++ remoteRef ++ "/" ++ L ++ ".bundle")
        with _ | msg
      · rw [hpr] at hok
        simp only [] at hok ⊢
        exact pushAfterBundle_ok _ _ _ _ _ _ _ _ _ hok
      · rw [hpr] at hok
        simp only [] at hok
        simp only [pushFinally] at hok
        exact absurd hok (reply_error_ne_reply_ok _ _ (by rfl) (by rfl))

/-- C2 witness: the theorem applied to a store holding one bundle with sha
"bb" while the local ref resolves to "aa" and the push succeeds. -/
theorem cmd_push_ok_always_deletes_prior_bundle_witness :
    "refs/heads/main" ≠ ""
    ∧ get_bundles_for_ref "p" "refs/heads/main" ["p/refs/heads/main/bb.bundle"]
        = ["p/refs/heads/main/bb.bundle"]
    ∧ envSmall.revParse (stripForce "refs/heads/main") = some "aa"
    ∧ (cmd_push_core envSmall .s3 "p" ["p/refs/heads/main/bb.bundle"]
          "refs/heads/main" "refs/heads/main").outcome
        = .reply ("ok " ++ "refs/heads/main" ++ "\n")
    ∧ (S3Event.deleteObject "p/refs/heads/main/bb.bundle"
          ∈ (cmd_push_core envSmall .s3 "p" ["p/refs/heads/main/bb.bundle"]
              "refs/heads/main" "refs/heads/main").events
        ∧ ((("p" ++ "/" ++ "refs/heads/main" ++ "/" ++ "aa" ++ ".bundle")
              ∈ (cmd_push_core envSmall .s3 "p" ["p/refs/heads/main/bb.bundle"]
                  "refs/heads/main" "refs/heads/main").s3)
            ↔ "p/refs/heads/main/bb.bundle"
              ≠ ("p" ++ "/" ++ "refs/heads/main" ++ "/" ++ "aa" ++ ".bundle"))) :=
  ⟨by decide, by decide, rfl, by decide,
    cmd_push_ok_always_deletes_prior_bundle envSmall .s3 "p"
      ["p/refs/heads/main/bb.bundle"] "refs/heads/main" "refs/heads/main"
      "p/refs/heads/main/bb.bundle" "aa" (by decide) (by decide) rfl (by decide)⟩

/-- C3: a non-delete push onto a ref holding exactly one prior bundle, with
force not granted and is_ancestor false, returns exactly the reply
error remote "remote ref is not ancestor of local."?, issues only the
listing calls (no put_object, no delete_object, nothing mutating), and leaves
the store unchanged. -/
theorem cmd_push_non_fast_forward_rejected (env : PushEnv) (scheme : UriScheme)
    (pfx : String) (s3 : List String) (localRef0 remoteRef prevKey L : String)
    (hne : localRef0 ≠ "")
    (hforce : forceGranted pfx remoteRef s3 localRef0 = false)
    (hb : get_bundles_for_ref pfx remoteRef s3 = [prevKey])
    (hrev : env.revParse (stripForce localRef0) = some L)
    (hanc : env.isAncestor (remoteShaOfKey prevKey) L = false) :
    cmd_push_core env scheme pfx s3 localRef0 remoteRef =
      { outcome := .reply ("error " ++ remoteRef ++ " \"remote ref is not ancestor of "
          ++ stripForce localRef0 ++ ".\"?\n")
        s3 := s3
        events := (if pyStartsWith localRef0 "+" then
            [S3Event.listObjects (pfx ++ "/" ++ remoteRef ++ "/PROTECTED#")]
          else []) ++ [S3Event.listObjects (pfx ++ "/" ++ remoteRef ++ "/")]
        tempFiles := [] }
    ∧ ((cmd_push_core env scheme pfx s3 localRef0 remoteRef).events.all
        (fun e => !e.isMutation)) = true := by
  unfold cmd_push_core
  rw [if_neg hne]
  simp only [hforce, hb, hrev, hanc, List.head?, List.length_cons, List.length_nil,
    Bool.not_false, Bool.and_self]
  rw [if_neg (by norm_num), if_pos trivial]
  refine ⟨rfl, ?_⟩
  simp only [pushFinally]
  split <;> simp [S3Event.isMutation]

/-- C3 witness: the theorem applied to a store holding one bundle with sha
"bb" while the local ref resolves to "aa" and is_ancestor is false. -/
theorem cmd_push_non_fast_forward_rejected_witness :
    "refs/heads/main" ≠ ""
    ∧ forceGranted "p" "refs/heads/main" ["p/refs/heads/main/bb.bundle"]
        "refs/heads/main" = false
    ∧ get_bundles_for_ref "p" "refs/heads/main" ["p/refs/heads/main/bb.bundle"]
        = ["p/refs/heads/main/bb.bundle"]
    ∧ envNoAnc.revParse (stripForce "refs/heads/main") = some "aa"
    ∧ envNoAnc.isAncestor (remoteShaOfKey "p/refs/heads/main/bb.bundle") "aa" = false
    ∧ (cmd_push_core envNoAnc .s3 "p" ["p/refs/heads/main/bb.bundle"]
          "refs/heads/main" "refs/heads/main" =
        { outcome := .reply ("error " ++ "refs/heads/main"
            ++ " \"remote ref is not ancestor of "
            ++ stripForce "refs/heads/main" ++ ".\"?\n")
          s3 := ["p/refs/heads/main/bb.bundle"]
          events := (if pyStartsWith "refs/heads/main" "+" then
              [S3Event.listObjects ("p" ++ "/" ++ "refs/heads/main" ++ "/PROTECTED#")]
            else []) ++ [S3Event.listObjects ("p" ++ "/" ++ "refs/heads/main" ++ "/")]
          tempFiles := [] }
        ∧ ((cmd_push_core envNoAnc .s3 "p" ["p/refs/heads/main/bb.bundle"]
            "refs/heads/main" "refs/heads/main").events.all
              (fun e => !e.isMutation)) = true) :=
  ⟨by decide, by decide, by decide, rfl, rfl,
    cmd_push_non_fast_forward_rejected envNoAnc .s3 "p" ["p/refs/heads/main/bb.bundle"]
      "refs/heads/main" "refs/heads/main" "p/refs/heads/main/bb.bundle" "aa"
      (by decide) (by decide) (by decide) rfl rfl⟩

lemma multipartUploadInner_def (env : MpuEnv) (n : Nat) (key : String) :
    multipartUploadInner env n key =
      match uploadParts env key 1 n with
      | (.error e, ev) => (.error e, ev ++ [.abortMultipart key])
      | (.ok parts, ev) =>
        if env.completeOk then
          (.ok true, ev ++ [.completeMultipart key parts])
        else
          (.error "ClientError", ev ++ [.completeMultipart key parts, .abortMultipart key]) :=
  rfl

lemma multipart_upload_file_def (env : MpuEnv) (size : Nat) (key : String)
    (md : Option String) :
    multipart_upload_file env size key md =
      if size = 0 then (.ok false, [])
      else if env.createOk then
        match multipartUploadInner env (mathCeil_div size DEFAULT_PART_SIZE) key with
        | (.error _, ev) => (.ok false, .createMultipart key md :: ev)
        | (.ok b, ev) => (.ok b, .createMultipart key md :: ev)
      else (.ok false, [.createMultipart key md]) :=
  rfl

lemma uploadParts_all_ok (env : MpuEnv) (key : String)
    (h : ∀ i, env.partOk i = true) :
    ∀ (n s : Nat), uploadParts env key s n =
      (.ok ((List.range n).map fun j => (s + j, env.partETag (s + j))),
       (List.range n).map fun j => S3Event.uploadPart key (s + j)) := by
  intro n
  induction n with
  | zero => intro s; rfl
  | succ m ih =>
    intro s
    rw [uploadParts, h s]
    simp only [if_true]
    rw [ih (s + 1)]
    simp only [List.range_succ_eq_map, List.map_map, List.map_cons, Nat.add_zero]
    have e1 : ((fun j => (s + j, env.partETag (s + j))) ∘ Nat.succ)
        = fun j => (s + 1 + j, env.partETag (s + 1 + j)) := by
      funext j
      simp only [Function.comp]
      rw [show s + Nat.succ j = s + 1 + j from by omega]
    have e2 : ((fun j => S3Event.uploadPart key (s + j)) ∘ Nat.succ)
        = fun j => S3Event.uploadPart key (s + 1 + j) := by
      funext j
      simp only [Function.comp]
      rw [show s + Nat.succ j = s + 1 + j from by omega]
    rw [e1, e2]

/-- C5 (amended): remove_remote_ref replies ok and deletes everything it
listed exactly when the listing under "<prefix>/<remote>" holds exactly one
object (scheme S3) or exactly two objects (scheme S3+ZIP), regardless of what
kinds of objects they are; in every other case it replies error remote not
found and deletes nothing. -/
theorem remove_remote_ref_checks_only_count (scheme : UriScheme)
    (pfx remoteRef : String) (s3 : List String) :
    (((scheme == UriScheme.s3
        && (s3.filter (fun k => pyStartsWith k (pfx ++ "/" ++ remoteRef))).length == 1)
      || (scheme == UriScheme.s3zip
        && (s3.filter (fun k => pyStartsWith k (pfx ++ "/" ++ remoteRef))).length == 2)) = true
      → remove_remote_ref scheme pfx remoteRef s3 =
          { outcome := .reply ("ok " ++ remoteRef ++ "\n")
            s3 := s3.filter (fun k =>
              !((s3.filter (fun k2 => pyStartsWith k2 (pfx ++ "/" ++ remoteRef))).contains k))
            events := [S3Event.listObjects (pfx ++ "/" ++ remoteRef)]
              ++ (s3.filter (fun k => pyStartsWith k (pfx ++ "/" ++ remoteRef))).map
                  S3Event.deleteObject
            tempFiles := [] })
    ∧ (((scheme == UriScheme.s3
        && (s3.filter (fun k => pyStartsWith k (pfx ++ "/" ++ remoteRef))).length == 1)
      || (scheme == UriScheme.s3zip
        && (s3.filter (fun k => pyStartsWith k (pfx ++ "/" ++ remoteRef))).length == 2)) = false
      → remove_remote_ref scheme pfx remoteRef s3 =
          { outcome := .reply ("error " ++ remoteRef ++ " not found\n")
            s3 := s3
            events := [S3Event.listObjects (pfx ++ "/" ++ remoteRef)]
            tempFiles := [] }) := by
  constructor
  · intro h
    unfold remove_remote_ref
    rw [if_pos h]
  · intro h
    unfold remove_remote_ref
    rw [if_neg (by simp [h])]

/-- C5 witness: the theorem applied to a store whose listing for the ref is
one bundle, under scheme S3. -/
theorem remove_remote_ref_checks_only_count_witness :
    ((UriScheme.s3 == UriScheme.s3
        && ((["q/r/x.bundle"] : List String).filter
            (fun k => pyStartsWith k ("q" ++ "/" ++ "r"))).length == 1)
      || (UriScheme.s3 == UriScheme.s3zip
        && ((["q/r/x.bundle"] : List String).filter
            (fun k => pyStartsWith k ("q" ++ "/" ++ "r"))).length == 2)) = true
    ∧ remove_remote_ref .s3 "q" "r" ["q/r/x.bundle"]
        = { outcome := .reply "ok r\n", s3 := [],
            events := [.listObjects "q/r", .deleteObject "q/r/x.bundle"],
            tempFiles := [] } :=
  ⟨by decide,
    (remove_remote_ref_checks_only_count .s3 "q" "r" ["q/r/x.bundle"]).1 (by decide)⟩

/-- C6 (amended): a single put is used exactly when the size is at most
2 GiB; above it, the multipart path initiates the upload with the given
metadata, numbers its parts consecutively from 1 collecting the PartNumber
and ETag pairs, and completes; but when a part upload or the completion
fails, multipart_upload_file aborts the multipart upload and then returns
False instead of propagating the exception, which the outer except swallows. -/
theorem multipart_uploader_contract :
    (∀ size : Nat,
      should_use_multipart_upload size = false ↔ size ≤ MULTIPART_UPLOAD_THRESHOLD)
    ∧ (∀ (env : MpuEnv) (size : Nat) (key : String) (md : Option String),
        env.createOk = true → env.completeOk = true → (∀ i, env.partOk i = true) →
        0 < size →
        multipart_upload_file env size key md =
          (.ok true,
            .createMultipart key md ::
              ((List.range (mathCeil_div size DEFAULT_PART_SIZE)).map
                  (fun j => S3Event.uploadPart key (1 + j))
                ++ [.completeMultipart key
                    ((List.range (mathCeil_div size DEFAULT_PART_SIZE)).map
                      (fun j => (1 + j, env.partETag (1 + j))))])))
    ∧ (∀ (env : MpuEnv) (size : Nat) (key : String) (md : Option String) (e : String)
        (evp : List S3Event),
        env.createOk = true → 0 < size →
        uploadParts env key 1 (mathCeil_div size DEFAULT_PART_SIZE) = (.error e, evp) →
        multipart_upload_file env size key md =
          (.ok false, .createMultipart key md :: (evp ++ [.abortMultipart key])))
    ∧ (∀ (env : MpuEnv) (size : Nat) (key : String) (md : Option String)
        (parts : List (Nat × String)) (evp : List S3Event),
        env.createOk = true → env.completeOk = false → 0 < size →
        uploadParts env key 1 (mathCeil_div size DEFAULT_PART_SIZE) = (.ok parts, evp) →
        multipart_upload_file env size key md =
          (.ok false, .createMultipart key md ::
            (evp ++ [.completeMultipart key parts, .abortMultipart key]))) := by
  refine ⟨?_, ?_, ?_, ?_⟩
  · intro size
    unfold should_use_multipart_upload
    simp [Nat.not_lt]
  · intro env size key md hc hcomp hparts hpos
    rw [multipart_upload_file_def, if_neg (by omega), if_pos hc]
    generalize mathCeil_div size DEFAULT_PART_SIZE = n
    rw [multipartUploadInner_def, uploadParts_all_ok env key hparts n 1]
    simp only [hcomp, if_true]
  · intro env size key md e evp hc hpos hup
    rw [multipart_upload_file_def, if_neg (by omega), if_pos hc]
    rw [multipartUploadInner_def, hup]
  · intro env size key md parts evp hc hcomp hpos hup
    rw [multipart_upload_file_def, if_neg (by omega), if_pos hc]
    rw [multipartUploadInner_def, hup]
    simp only [hcomp, Bool.false_eq_true, if_false]

/-- C6 witness: the success branch of the contract applied to a one-byte
file, whose single part yields one PartNumber and ETag pair. -/
theorem multipart_uploader_contract_witness :
    mpuOkAll.createOk = true
    ∧ mpuOkAll.completeOk = true
    ∧ (∀ i, mpuOkAll.partOk i = true)
    ∧ (0 : Nat) < 1
    ∧ multipart_upload_file mpuOkAll 1 "k" none
        = (.ok true, [.createMultipart "k" none, .uploadPart "k" 1,
            .completeMultipart "k" [(1, "etag")]]) :=
  ⟨rfl, rfl, fun _ => rfl, by decide,
    multipart_uploader_contract.2.1 mpuOkAll 1 "k" none rfl rfl (fun _ => rfl)
      (by decide)⟩

/-- C7 (amended): when the two workers of a duplicate-sha batch run one after
the other (the first completes before the second takes a step), the second
worker finds the sha in fetched_refs and returns at once, so get_object and
git unbundle each run exactly once; the counterexample schedule shows that a
concurrent interleaving can instead run both twice. -/
theorem sequential_fetch_runs_unbundle_once (pfx sha ref : String) :
    runPool pfx [⟨sha, ref⟩, ⟨sha, ref⟩] [0, 0, 0, 0, 1] =
      { pcs := [4, 4], fetchedRefs := [sha],
        events := [.getObject (pfx ++ "/" ++ ref ++ "/" ++ sha ++ ".bundle"),
          .unbundle sha ref] } := by
  simp [runPool, initPool, stepWorker, List.foldl]

/-- C8 (amended): whatever the per-command outcomes of the submitted
cmd_fetch calls are — including batches where every command failed — the
flush returns normally and writes only the terminating empty line:
concurrent.futures.wait never re-raises, the futures are never asked for
their results, and no fatal error is reported. -/
theorem fetch_flush_swallows_worker_errors (outcomes : List (Except String Unit)) :
    flushFetchBatch outcomes = .ok ["\n"] := by
  cases outcomes <;> rfl

lemma remove_remote_ref_tempFiles (scheme : UriScheme) (pfx remoteRef : String)
    (s3 : List String) :
    (remove_remote_ref scheme pfx remoteRef s3).tempFiles = [] := by
  unfold remove_remote_ref
  simp only []
  split <;> rfl

lemma pushFinally_all_archive (sha : String) (i : PushOutcome) (s3 : List String)
    (ev : List S3Event) (files : List String)
    (h : ∀ f ∈ files, f = tempDirPush ++ "/" ++ sha ++ ".bundle" ∨ f = archiveTempPath) :
    ((pushFinally (some sha) i s3 ev files).tempFiles.all
      (fun f => f == archiveTempPath)) = true := by
  simp only [pushFinally]
  rw [List.all_eq_true]
  intro f hf
  rw [List.mem_filter] at hf
  obtain ⟨hfm, hfne⟩ := hf
  rcases h f hfm with h1 | h2
  · rw [h1] at hfne
    simp at hfne
  · rw [h2]
    simp

lemma pushAfterBundle_tempFiles (env : PushEnv) (scheme : UriScheme)
    (pfx remoteRef : String) (rtr : Option String) (sha : String)
    (s3 : List String) (ev : List S3Event) :
    ((pushAfterBundle env scheme pfx remoteRef rtr sha s3 ev
        [tempDirPush ++ "/" ++ sha ++ ".bundle"]).tempFiles.all
      (fun f => f == archiveTempPath)) = true := by
  unfold pushAfterBundle
  simp only []
  split
  · exact pushFinally_all_archive _ _ _ _ _
      (by intro f hf; simp at hf; exact Or.inl hf)
  · split
    · split
      · split
        · exact pushFinally_all_archive _ _ _ _ _
            (by intro f hf; simp at hf; exact hf)
        · exact pushFinally_all_archive _ _ _ _ _
            (by intro f hf; simp at hf; exact hf)
        · exact pushFinally_all_archive _ _ _ _ _
            (by intro f hf; simp at hf; exact hf)
      · split
        · exact pushFinally_all_archive _ _ _ _ _
            (by intro f hf; simp at hf; exact hf)
        · exact pushFinally_all_archive _ _ _ _ _
            (by intro f hf; simp at hf; exact hf)
    · exact pushFinally_all_archive _ _ _ _ _
        (by intro f hf; simp at hf; exact Or.inl hf)

/-- C9 (amended): across every path of cmd_push — delete, multiple-bundles
refusal, git failure, fast-forward refusal, upload failure, and success under
either scheme — the only temporary file that can remain when the call ends is
the S3+ZIP zip archive, which the finally block never removes; the bundle
temporary file is always gone.  Likewise every path of cmd_fetch ends with no
temporary file left. -/
theorem temp_bundle_files_always_removed :
    (∀ (env : PushEnv) (scheme : UriScheme) (pfx : String) (s3 : List String)
        (localRef0 remoteRef : String),
      ((cmd_push_core env scheme pfx s3 localRef0 remoteRef).tempFiles.all
        (fun f => f == archiveTempPath)) = true)
    ∧ (∀ (pfx : String) (s3 : List String) (uok : Bool) (fr : List String)
        (sha ref : String),
      (cmd_fetch pfx s3 uok fr sha ref).tempFiles = []) := by
  constructor
  · intro env scheme pfx s3 localRef0 remoteRef
    unfold cmd_push_core
    simp only []
    split
    · rw [remove_remote_ref_tempFiles]
      rfl
    · split
      · rfl
      · split
        · rfl
        · split
          · rfl
          · split
            · split
              · exact pushFinally_all_archive _ _ _ _ _
                  (by intro f hf; simp at hf; exact Or.inl hf)
              · exact pushFinally_all_archive _ _ _ _ _
                  (by intro f hf; simp at hf; exact Or.inl hf)
              · exact pushAfterBundle_tempFiles _ _ _ _ _ _ _ _
            · split
              · exact pushFinally_all_archive _ _ _ _ _
                  (by intro f hf; simp at hf; exact Or.inl hf)
              · exact pushAfterBundle_tempFiles _ _ _ _ _ _ _ _
  · intro pfx s3 uok fr sha ref
    unfold cmd_fetch
    simp only []
    split
    · rfl
    · split
      · rfl
      · split <;> simp [fetchFinally]

/-- C10 (amended): for the command option name value, and for any behaviour
pyInt of the builtin int(), cmd_option emits unsupported whenever name
differs from verbosity; for name verbosity it applies int() to value,
emitting ok and raising the log level when the parsed integer is at least 2
and unsupported when it is smaller — but when int() raises ValueError (a
value that is not an integer literal), the ValueError escapes cmd_option and
terminates the helper through the catch-all in main. -/
theorem cmd_option_characterized (pyInt : String → Option Int)
    (arg name value : String)
    (h : pySplit arg ' ' = ["option", name, value]) :
    (name ≠ "verbosity" → cmd_option pyInt arg = .ok ("unsupported\n", false))
    ∧ (name = "verbosity" ∧ pyInt value = none →
        cmd_option pyInt arg = .error "ValueError")
    ∧ (∀ v : Int, name = "verbosity" ∧ pyInt value = some v →
        cmd_option pyInt arg = (if v ≥ 2 then .ok ("ok\n", true)
          else .ok ("unsupported\n", false))) := by
  unfold cmd_option
  rw [h]
  refine ⟨?_, ?_, ?_⟩
  · intro hn
    simp only [List.drop]
    rw [if_neg hn]
  · rintro ⟨hn, hv⟩
    simp only [List.drop]
    rw [if_pos hn, hv]
  · rintro v ⟨hn, hv⟩
    simp only [List.drop]
    rw [if_pos hn, hv]

/-- C10 witness: the theorem applied to option verbosity 3, an integer value
of at least 2. -/
theorem cmd_option_characterized_witness :
    pySplit "option verbosity 3" ' ' = ["option", "verbosity", "3"]
    ∧ pyIntVal "3" = some 3
    ∧ cmd_option pyIntVal "option verbosity 3" = .ok ("ok\n", true) :=
  ⟨by decide, by decide,
    (cmd_option_characterized pyIntVal "option verbosity 3" "verbosity" "3"
      (by decide)).2.2 3 ⟨rfl, by decide⟩⟩
